import Mathlib

/-!
Shallow embedding of the chat-server hub from `src/server.py`
(repository zeov1/yadro-console-chat).

Modelling choices:
* The shared mutable state of `ChatServer` is a `ServerState` record:
  `counter` is `self.client_counter`, `clients` is the key list of the
  `self.clients` dict in insertion order (the connection handle and peer
  address stored per key are external transport objects and are not part
  of any routing decision, so only the keys are modelled), `queues` maps
  each client id to the full enqueue history of its `Queue` (the delivery
  loop `send_messages` drains a FIFO, so the n-th message a client
  receives is the n-th element of its history), `closed` is the log of
  `conn.close()` calls, and `socketClosed` records closing of the
  listening socket.
* Each region that the code executes under one acquisition of
  `self.lock`, plus each single queue operation, is one atomic action;
  the per-client threads interleave these actions.
* Python's `str.split(maxsplit=2)`, `str.isdigit`, `str.startswith` and
  `int` on digit strings are reproduced over `List Char` (ASCII digits
  and whitespace, which is what the protocol traffic consists of).
-/

/-- Python whitespace characters recognised by `str.split()`. -/
def isSpaceCh (c : Char) : Bool :=
  c = ' ' || c = '\t' || c = '\n' || c = '\r' || c = '\x0b' || c = '\x0c'

/-- Drop a leading run of whitespace, as `str.split()` does between tokens. -/
def dropSpaces : List Char → List Char
  | [] => []
  | c :: cs => if isSpaceCh c then dropSpaces cs else c :: cs

/-- Split off the longest whitespace-free leading token; returns (token, rest). -/
def takeToken : List Char → List Char × List Char
  | [] => ([], [])
  | c :: cs =>
    if isSpaceCh c then ([], c :: cs)
    else
      let p := takeToken cs
      (c :: p.1, p.2)

/-- Python `s.split(maxsplit=m)` with `sep=None`: split on whitespace runs,
at most `m` splits; once `m` splits are made the remainder (leading
whitespace stripped) is kept verbatim as the last token. -/
def splitMaxAux : Nat → List Char → List (List Char)
  | 0, cs =>
    match dropSpaces cs with
    | [] => []
    | c :: rest => [c :: rest]
  | Nat.succ m, cs =>
    match dropSpaces cs with
    | [] => []
    | c :: rest => (c :: (takeToken rest).1) :: splitMaxAux m (takeToken rest).2

/-- The `data.split(maxsplit=2)` of `handle_client` (src/server.py line 93). -/
def pySplit3 (s : String) : List String :=
  (splitMaxAux 2 s.data).map String.mk

/-- Python `s.isdigit()` restricted to ASCII: nonempty and all characters
are decimal digits (src/server.py line 94). -/
def pyIsdigit (s : String) : Bool :=
  !s.data.isEmpty && s.data.all Char.isDigit

/-- Python `int(s)` for a digit string (src/server.py line 95). -/
def pyInt (s : String) : Nat :=
  s.data.foldl (fun n c => n * 10 + (c.toNat - 48)) 0

/-- List-level string-prefix test. -/
def startsWithL : List Char → List Char → Bool
  | [], _ => true
  | _ :: _, [] => false
  | p :: ps, c :: cs => p = c && startsWithL ps cs

/-- Python `s.startswith(pre)` (src/server.py lines 92 and 102). -/
def pyStartswith (s pre : String) : Bool :=
  startsWithL pre.data s.data

/-- Python `sep.join(xs)`. -/
def pyJoin (sep : String) : List String → String
  | [] => ""
  | [s] => s
  | s :: s2 :: rest => s ++ sep ++ pyJoin sep (s2 :: rest)

/-- The state of `ChatServer`: counter, registry key list (insertion
order of the `self.clients` dict), per-id outbound enqueue history
(`self.message_queues`), log of closed connections, listening-socket flag. -/
structure ServerState where
  counter : Nat
  clients : List Nat
  queues : List (Nat × List String)
  closed : List Nat
  socketClosed : Bool
  deriving DecidableEq

/-- The state right after `ChatServer.__init__`. -/
def initState : ServerState :=
  { counter := 0, clients := [], queues := [], closed := [], socketClosed := false }

/-- Enqueue `msg` on the queue of `id` (Python `self.message_queues[id].put(msg)`;
a queue only exists for a registered id, matching the dict lookup). -/
def putQueue (qs : List (Nat × List String)) (id : Nat) (msg : String) :
    List (Nat × List String) :=
  qs.map fun p => if p.1 = id then (p.1, p.2 ++ [msg]) else p

/-- State-level enqueue to one client's outbound queue. -/
def putQ (st : ServerState) (id : Nat) (msg : String) : ServerState :=
  { st with queues := putQueue st.queues id msg }

/-- Queue history of one id, `none` when the id has no queue. -/
def lookupQ (id : Nat) : List (Nat × List String) → Option (List String)
  | [] => none
  | p :: rest => if p.1 = id then some p.2 else lookupQ id rest

/-- Key list of the queue map. -/
def queueKeys (qs : List (Nat × List String)) : List Nat :=
  qs.map Prod.fst

/-- Total number of messages ever enqueued, over all queues. -/
def totalMsgs (qs : List (Nat × List String)) : Nat :=
  (qs.map (fun p => p.2.length)).sum

/-- The string `f'Сообщение от {sender_id}: {message}'` (src/server.py line 120). -/
def fromMsg (sender_id : Nat) (message : String) : String :=
  "Сообщение от " ++ Nat.repr sender_id ++ ": " ++ message

/-- The string `f'Сообщение доставлено клиенту {recipient_id}'` (src/server.py line 121). -/
def deliveredMsg (recipient_id : Nat) : String :=
  "Сообщение доставлено клиенту " ++ Nat.repr recipient_id

/-- Prefix of the recipient-not-found error (src/server.py line 124). -/
def notFoundPre : String := "Ошибка: Клиент "

/-- Suffix of the recipient-not-found error (src/server.py line 124). -/
def notFoundSuf : String := " не найден"

/-- The string `f'Ошибка: Клиент {recipient_id} не найден'` (src/server.py line 124). -/
def notFoundMsg (recipient_id : Nat) : String :=
  notFoundPre ++ (Nat.repr recipient_id ++ notFoundSuf)

/-- The malformed-command error (src/server.py line 100). -/
def formatErrMsg : String :=
  "Ошибка: Неверный формат команды. Используйте /send <ID> <сообщение>"

/-- Separator used by the `/users` reply (src/server.py line 104). -/
def commaSep : String := ", "

/-- The `/users` reply (src/server.py line 104): lists `self.clients` keys
in dict insertion order, comma separated. -/
def usersMsg (st : ServerState) : String :=
  "Список доступных пользователей: " ++ pyJoin commaSep (st.clients.map Nat.repr)

/-- Modelled from the spec: `ALLOWED_COMMANDS` is imported from
`src/settings.py`, which is not among the sources; the spec (section 6)
gives the recognised command forms as `/send <id> <text>` and `/users`. -/
def ALLOWED_COMMANDS : List String :=
  ["/send <ID> <сообщение>", "/users"]

/-- Prefix of the unknown-command error (src/server.py line 108). -/
def unknownPre : String := "Ошибка: Неизвестная команда. Список доступных команд:\n"

/-- Separator joining `ALLOWED_COMMANDS` (src/server.py line 108). -/
def nlSep : String := "\n"

/-- The unknown-command error (src/server.py line 108). -/
def unknownCmdMsg : String :=
  unknownPre ++ pyJoin nlSep ALLOWED_COMMANDS

/-- The command literal tested by `data.startswith('/send')` (line 92). -/
def sendCmdStr : String := "/send"

/-- The command literal tested by `data.startswith('/users')` (line 102). -/
def usersCmdStr : String := "/users"

/-- `ChatServer.route_message` (src/server.py lines 116-125): under the
lock, if the recipient is registered enqueue the chat message to the
recipient and the delivery acknowledgement to the sender, otherwise
enqueue the not-found error to the sender. -/
def route_message (st : ServerState) (sender_id recipient_id : Nat)
    (message : String) : ServerState :=
  if recipient_id ∈ st.clients then
    putQ (putQ st recipient_id (fromMsg sender_id message)) sender_id
      (deliveredMsg recipient_id)
  else
    putQ st sender_id (notFoundMsg recipient_id)

/-- Handling of one nonempty received string by `handle_client`
(src/server.py lines 92-109): classify by `startswith`, parse `/send`
with `split(maxsplit=2)` and `isdigit`, and route or report an error. -/
def handle_line (st : ServerState) (client_id : Nat) (data : String) : ServerState :=
  if pyStartswith data sendCmdStr then
    match pySplit3 data with
    | [_, p1, p2] =>
      if pyIsdigit p1 then route_message st client_id (pyInt p1) p2
      else putQ st client_id formatErrMsg
    | _ => putQ st client_id formatErrMsg
  else if pyStartswith data usersCmdStr then
    putQ st client_id (usersMsg st)
  else
    putQ st client_id unknownCmdMsg

/-- Whether a `/send` line passes the guard `len(parts) == 3 and
parts[1].isdigit()` of src/server.py line 94. -/
def sendWellFormed (data : String) : Bool :=
  match pySplit3 data with
  | [_, p1, _] => pyIsdigit p1
  | _ => false

/-- `ChatServer.disconnect_client` (src/server.py lines 138-146): under
the lock, if the id is registered remove its registry entry and its
queue (dict `pop`; on the modelled key list, removal of the key) and
close its connection; otherwise do nothing. -/
def disconnect_client (st : ServerState) (client_id : Nat) : ServerState :=
  if client_id ∈ st.clients then
    { st with
      clients := st.clients.filter (fun x => x != client_id),
      queues := st.queues.filter (fun p => p.1 != client_id),
      closed := st.closed ++ [client_id] }
  else st

/-- The locked part of accepting a connection (src/server.py lines 49-54):
increment the counter, take the new id, and under the lock insert the
registry entry and create its (still empty) queue. -/
def connectReg (st : ServerState) : ServerState :=
  { st with
    counter := st.counter + 1,
    clients := st.clients ++ [st.counter + 1],
    queues := st.queues ++ [(st.counter + 1, [])] }

/-- The welcome enqueue `self.message_queues[client_id].put(str(client_id))`
(src/server.py lines 59-61), executed after the lock is released. -/
def welcomePut (st : ServerState) (client_id : Nat) : ServerState :=
  putQ st client_id (Nat.repr client_id)

/-- One complete accept iteration with no interleaving between its two
atomic actions: registration followed by the welcome enqueue. -/
def connectClient (st : ServerState) : ServerState :=
  welcomePut (connectReg st) (st.counter + 1)

/-- Atomic actions of the hub as driven by the accept loop and the
per-client inbound threads. -/
inductive Op where
  | connect : Op
  | line : Nat → String → Op
  | disconnect : Nat → Op

/-- Effect of one atomic action. -/
def applyOp (st : ServerState) : Op → ServerState
  | Op.connect => connectClient st
  | Op.line sender data => handle_line st sender data
  | Op.disconnect id => disconnect_client st id

/-- Run a sequence of actions. -/
def run (st : ServerState) (ops : List Op) : ServerState :=
  ops.foldl applyOp st

/-- The identities handed out by the `connect` actions of a trace, in
order (src/server.py lines 49-50: each connect assigns `counter + 1`). -/
def assignedIds : ServerState → List Op → List Nat
  | _, [] => []
  | st, Op.connect :: ops => (st.counter + 1) :: assignedIds (applyOp st Op.connect) ops
  | st, Op.line s d :: ops => assignedIds (applyOp st (Op.line s d)) ops
  | st, Op.disconnect i :: ops => assignedIds (applyOp st (Op.disconnect i)) ops

/-- Acquiring Python's non-reentrant `threading.Lock`: blocks forever
(modelled as `none`) when the lock is already held by the same thread. -/
def acquireLock (held : Bool) : Option Unit :=
  if held then none else some ()

/-- `disconnect_client` as called with `outerHeld` recording whether the
calling thread already holds `self.lock`; the body starts with
`with self.lock:` (src/server.py line 140). -/
def disconnect_client_locked (outerHeld : Bool) (st : ServerState)
    (client_id : Nat) : Option ServerState :=
  match acquireLock outerHeld with
  | none => none
  | some _ => some (disconnect_client st client_id)

/-- The loop body of `ChatServer.shutdown` (src/server.py lines 151-152):
iterate over the snapshot of registered ids, calling `disconnect_client`
while still holding `self.lock`; afterwards close the listening socket. -/
def shutdownLoop (st : ServerState) : List Nat → Option ServerState
  | [] => some { st with socketClosed := true }
  | id :: rest =>
    match disconnect_client_locked true st id with
    | none => none
    | some st' => shutdownLoop st' rest

/-- `ChatServer.shutdown` (src/server.py lines 148-155): acquire the free
lock, then run the disconnect loop with the lock held. -/
def shutdown (st : ServerState) : Option ServerState :=
  match acquireLock false with
  | none => none
  | some _ => shutdownLoop st st.clients


/-! Helper lemmas about queue-map operations. -/

theorem lookupQ_cons (p : Nat × List String) (rest : List (Nat × List String))
    (k : Nat) :
    lookupQ k (p :: rest) = if p.1 = k then some p.2 else lookupQ k rest := rfl

theorem putQueue_cons (p : Nat × List String) (rest : List (Nat × List String))
    (id : Nat) (msg : String) :
    putQueue (p :: rest) id msg =
      (if p.1 = id then (p.1, p.2 ++ [msg]) else p) :: putQueue rest id msg := rfl

theorem lookupQ_putQueue_self (qs : List (Nat × List String)) (id : Nat)
    (msg : String) (l : List String) (h : lookupQ id qs = some l) :
    lookupQ id (putQueue qs id msg) = some (l ++ [msg]) := by
  induction qs with
  | nil => simp [lookupQ] at h
  | cons p rest ih =>
    rw [putQueue_cons]
    by_cases hp : p.1 = id
    · rw [lookupQ_cons, if_pos hp] at h
      simp only [Option.some.injEq] at h
      rw [if_pos hp, lookupQ_cons]
      dsimp only
      rw [if_pos hp, h]
    · rw [if_neg hp, lookupQ_cons, if_neg hp]
      rw [lookupQ_cons, if_neg hp] at h
      exact ih h

theorem lookupQ_putQueue_ne (qs : List (Nat × List String)) (id k : Nat)
    (msg : String) (h : k ≠ id) :
    lookupQ k (putQueue qs id msg) = lookupQ k qs := by
  induction qs with
  | nil => rfl
  | cons p rest ih =>
    rw [putQueue_cons]
    by_cases hp : p.1 = id
    · have h2 : id ≠ k := fun hc => h hc.symm
      rw [if_pos hp, lookupQ_cons, lookupQ_cons]
      dsimp only
      rw [hp, if_neg h2, if_neg h2]
      exact ih
    · rw [if_neg hp, lookupQ_cons, lookupQ_cons]
      by_cases hpk : p.1 = k
      · rw [if_pos hpk, if_pos hpk]
      · rw [if_neg hpk, if_neg hpk]
        exact ih

theorem putQueue_keys (qs : List (Nat × List String)) (id : Nat) (msg : String) :
    queueKeys (putQueue qs id msg) = queueKeys qs := by
  induction qs with
  | nil => rfl
  | cons p rest ih =>
    rw [putQueue_cons]
    by_cases hp : p.1 = id
    · rw [if_pos hp]
      show p.1 :: queueKeys (putQueue rest id msg) = p.1 :: queueKeys rest
      rw [ih]
    · rw [if_neg hp]
      show p.1 :: queueKeys (putQueue rest id msg) = p.1 :: queueKeys rest
      rw [ih]

theorem mem_keys_of_lookupQ (qs : List (Nat × List String)) (k : Nat)
    (l : List String) (h : lookupQ k qs = some l) : k ∈ queueKeys qs := by
  induction qs with
  | nil => simp [lookupQ] at h
  | cons p rest ih =>
    rw [lookupQ_cons] at h
    by_cases hp : p.1 = k
    · show k ∈ p.1 :: queueKeys rest
      rw [hp]
      exact List.mem_cons_self k _
    · rw [if_neg hp] at h
      show k ∈ p.1 :: queueKeys rest
      exact List.mem_cons_of_mem _ (ih h)

theorem lookupQ_filter_self (qs : List (Nat × List String)) (id : Nat) :
    lookupQ id (qs.filter (fun p => p.1 != id)) = none := by
  induction qs with
  | nil => rfl
  | cons p rest ih =>
    rw [List.filter_cons]
    by_cases hp : p.1 = id
    · simp only [hp, bne_self_eq_false, Bool.false_eq_true, if_false]
      exact ih
    · simp only [bne_iff_ne, ne_eq, hp, not_false_eq_true, if_true, lookupQ_cons,
        if_neg hp]
      exact ih

theorem lookupQ_filter_ne (qs : List (Nat × List String)) (id k : Nat)
    (h : k ≠ id) :
    lookupQ k (qs.filter (fun p => p.1 != id)) = lookupQ k qs := by
  induction qs with
  | nil => rfl
  | cons p rest ih =>
    rw [List.filter_cons, lookupQ_cons]
    by_cases hp : p.1 = id
    · have h2 : id ≠ k := fun hc => h hc.symm
      simp only [hp, bne_self_eq_false, Bool.false_eq_true, if_false, if_neg h2]
      exact ih
    · simp only [bne_iff_ne, ne_eq, hp, not_false_eq_true, if_true, lookupQ_cons]
      by_cases hpk : p.1 = k
      · rw [if_pos hpk, if_pos hpk]
      · rw [if_neg hpk, if_neg hpk]
        exact ih

theorem keys_filter (qs : List (Nat × List String)) (id : Nat) :
    queueKeys (qs.filter (fun p => p.1 != id)) =
      (queueKeys qs).filter (fun x => x != id) := by
  induction qs with
  | nil => rfl
  | cons p rest ih =>
    rw [List.filter_cons]
    show _ = List.filter (fun x => x != id) (p.1 :: queueKeys rest)
    rw [List.filter_cons]
    by_cases hp : (p.1 != id) = true
    · rw [if_pos hp, if_pos hp]
      show p.1 :: queueKeys (List.filter _ rest) = _
      rw [ih]
    · rw [if_neg hp, if_neg hp]
      exact ih

theorem totalMsgs_putQueue (qs : List (Nat × List String)) (id : Nat) (msg : String) :
    totalMsgs (putQueue qs id msg) = totalMsgs qs + (queueKeys qs).count id := by
  induction qs with
  | nil => rfl
  | cons p rest ih =>
    rw [putQueue_cons]
    by_cases hp : p.1 = id
    · rw [if_pos hp]
      show (p.2 ++ [msg]).length + totalMsgs (putQueue rest id msg) =
        p.2.length + totalMsgs rest + (p.1 :: queueKeys rest).count id
      rw [ih, List.count_cons]
      simp [hp]
      omega
    · rw [if_neg hp]
      show p.2.length + totalMsgs (putQueue rest id msg) =
        p.2.length + totalMsgs rest + (p.1 :: queueKeys rest).count id
      rw [ih, List.count_cons]
      simp [hp]
      omega

/-! State-level preservation lemmas. -/

theorem putQ_clients (st : ServerState) (id : Nat) (msg : String) :
    (putQ st id msg).clients = st.clients := rfl

theorem putQ_counter (st : ServerState) (id : Nat) (msg : String) :
    (putQ st id msg).counter = st.counter := rfl

theorem putQ_closed (st : ServerState) (id : Nat) (msg : String) :
    (putQ st id msg).closed = st.closed := rfl

theorem putQ_keys (st : ServerState) (id : Nat) (msg : String) :
    queueKeys (putQ st id msg).queues = queueKeys st.queues :=
  putQueue_keys st.queues id msg

theorem route_message_clients (st : ServerState) (s r : Nat) (m : String) :
    (route_message st s r m).clients = st.clients := by
  unfold route_message
  split <;> rfl

theorem route_message_counter (st : ServerState) (s r : Nat) (m : String) :
    (route_message st s r m).counter = st.counter := by
  unfold route_message
  split <;> rfl

theorem route_message_closed (st : ServerState) (s r : Nat) (m : String) :
    (route_message st s r m).closed = st.closed := by
  unfold route_message
  split <;> rfl

theorem route_message_keys (st : ServerState) (s r : Nat) (m : String) :
    queueKeys (route_message st s r m).queues = queueKeys st.queues := by
  unfold route_message
  split
  · show queueKeys (putQueue (putQueue st.queues r _) s _) = _
    rw [putQueue_keys, putQueue_keys]
  · exact putQ_keys st s _

theorem handle_line_clients (st : ServerState) (c : Nat) (data : String) :
    (handle_line st c data).clients = st.clients := by
  unfold handle_line
  split
  · split
    · split
      · exact route_message_clients st c _ _
      · rfl
    · rfl
  · split <;> rfl

theorem handle_line_counter (st : ServerState) (c : Nat) (data : String) :
    (handle_line st c data).counter = st.counter := by
  unfold handle_line
  split
  · split
    · split
      · exact route_message_counter st c _ _
      · rfl
    · rfl
  · split <;> rfl

theorem handle_line_closed (st : ServerState) (c : Nat) (data : String) :
    (handle_line st c data).closed = st.closed := by
  unfold handle_line
  split
  · split
    · split
      · exact route_message_closed st c _ _
      · rfl
    · rfl
  · split <;> rfl

theorem handle_line_keys (st : ServerState) (c : Nat) (data : String) :
    queueKeys (handle_line st c data).queues = queueKeys st.queues := by
  unfold handle_line
  split
  · split
    · split
      · exact route_message_keys st c _ _
      · exact putQ_keys st c _
    · exact putQ_keys st c _
  · split
    · exact putQ_keys st c _
    · exact putQ_keys st c _

theorem disconnect_client_counter (st : ServerState) (id : Nat) :
    (disconnect_client st id).counter = st.counter := by
  unfold disconnect_client
  split <;> rfl

/-! Parsing facts. -/

theorem splitMaxAux_length (m : Nat) (cs : List Char) :
    (splitMaxAux m cs).length ≤ m + 1 := by
  induction m generalizing cs with
  | zero =>
    unfold splitMaxAux
    split <;> simp
  | succ m ih =>
    unfold splitMaxAux
    split
    · simp
    · rename_i c rest heq
      simp only [List.length_cons]
      have := ih (takeToken rest).2
      omega

theorem splitMaxAux_mem_ne_nil (m : Nat) (cs : List Char) (l : List Char)
    (h : l ∈ splitMaxAux m cs) : l ≠ [] := by
  induction m generalizing cs with
  | zero =>
    unfold splitMaxAux at h
    revert h
    split
    · intro h
      simp at h
    · intro h
      simp at h
      rw [h]
      simp
  | succ m ih =>
    unfold splitMaxAux at h
    revert h
    split
    · intro h
      simp at h
    · intro h
      rcases List.mem_cons.mp h with h1 | h2
      · rw [h1]
        simp
      · exact ih _ h2

theorem pySplit3_length (s : String) : (pySplit3 s).length ≤ 3 := by
  unfold pySplit3
  rw [List.length_map]
  exact splitMaxAux_length 2 s.data

theorem pySplit3_mem_ne_empty (s t : String) (h : t ∈ pySplit3 s) : t ≠ "" := by
  unfold pySplit3 at h
  rcases List.mem_map.mp h with ⟨l, hl, hmk⟩
  have hne := splitMaxAux_mem_ne_nil 2 s.data l hl
  intro hc
  apply hne
  have : (String.mk l).data = ("" : String).data := by rw [hmk, hc]
  simpa using this

theorem pySplit3_third_ne_empty (s p0 p1 p2 : String)
    (h : pySplit3 s = [p0, p1, p2]) : p2 ≠ "" := by
  apply pySplit3_mem_ne_empty s
  rw [h]
  simp

/-! Reachability invariant: registry keys and queue keys stay paired,
without duplicates, and bounded by the counter. -/

/-- Structural invariant of every reachable hub state. -/
def GoodState (st : ServerState) : Prop :=
  st.clients = queueKeys st.queues ∧ st.clients.Nodup ∧
    ∀ k ∈ st.clients, k ≤ st.counter

theorem goodState_init : GoodState initState := by
  refine ⟨rfl, List.nodup_nil, ?_⟩
  intro k hk
  simp [initState] at hk

theorem goodState_connect (st : ServerState) (h : GoodState st) :
    GoodState (connectClient st) := by
  obtain ⟨h1, h2, h3⟩ := h
  have hfresh : st.counter + 1 ∉ st.clients := fun hc =>
    Nat.not_succ_le_self st.counter (h3 _ hc)
  refine ⟨?_, ?_, ?_⟩
  · show (connectReg st).clients = queueKeys (putQueue (connectReg st).queues _ _)
    rw [putQueue_keys]
    show st.clients ++ [st.counter + 1] =
      queueKeys (st.queues ++ [(st.counter + 1, [])])
    unfold queueKeys
    rw [List.map_append, h1]
    rfl
  · show (st.clients ++ [st.counter + 1]).Nodup
    rw [List.nodup_append]
    exact ⟨h2, List.nodup_singleton _, by
      intro a ha hb
      rw [List.mem_singleton] at hb
      exact hfresh (hb ▸ ha)⟩
  · intro k hk
    show k ≤ st.counter + 1
    rcases List.mem_append.mp hk with hk1 | hk2
    · exact Nat.le_succ_of_le (h3 _ hk1)
    · rw [List.mem_singleton] at hk2
      omega

theorem goodState_line (st : ServerState) (s : Nat) (d : String)
    (h : GoodState st) : GoodState (handle_line st s d) := by
  obtain ⟨h1, h2, h3⟩ := h
  refine ⟨?_, ?_, ?_⟩
  · rw [handle_line_clients, handle_line_keys]
    exact h1
  · rw [handle_line_clients]
    exact h2
  · rw [handle_line_clients, handle_line_counter]
    exact h3

theorem goodState_disconnect (st : ServerState) (id : Nat)
    (h : GoodState st) : GoodState (disconnect_client st id) := by
  obtain ⟨h1, h2, h3⟩ := h
  unfold disconnect_client
  split
  · refine ⟨?_, ?_, ?_⟩
    · show st.clients.filter (fun x => x != id) =
        queueKeys (st.queues.filter (fun p => p.1 != id))
      rw [keys_filter, h1]
    · exact h2.filter _
    · intro k hk
      exact h3 _ (List.mem_of_mem_filter hk)
  · exact ⟨h1, h2, h3⟩

theorem goodState_step (st : ServerState) (op : Op) (h : GoodState st) :
    GoodState (applyOp st op) := by
  cases op with
  | connect => exact goodState_connect st h
  | line s d => exact goodState_line st s d h
  | disconnect id => exact goodState_disconnect st id h

theorem run_cons (st : ServerState) (op : Op) (ops : List Op) :
    run st (op :: ops) = run (applyOp st op) ops := rfl

theorem goodState_run (ops : List Op) (st : ServerState) (h : GoodState st) :
    GoodState (run st ops) := by
  induction ops generalizing st with
  | nil => exact h
  | cons op ops ih =>
    rw [run_cons]
    exact ih _ (goodState_step st op h)

/-! Counter monotonicity and the assigned-identity list. -/

theorem applyOp_counter_le (st : ServerState) (op : Op) :
    st.counter ≤ (applyOp st op).counter := by
  cases op with
  | connect => exact Nat.le_succ _
  | line s d =>
    show st.counter ≤ (handle_line st s d).counter
    rw [handle_line_counter]
  | disconnect id =>
    show st.counter ≤ (disconnect_client st id).counter
    rw [disconnect_client_counter]

theorem assignedIds_gt (ops : List Op) (st : ServerState) (x : Nat)
    (h : x ∈ assignedIds st ops) : st.counter < x := by
  induction ops generalizing st with
  | nil => simp [assignedIds] at h
  | cons op ops ih =>
    cases op with
    | connect =>
      rw [assignedIds] at h
      rcases List.mem_cons.mp h with h1 | h2
      · omega
      · have := ih _ h2
        have hle := applyOp_counter_le st Op.connect
        omega
    | line s d =>
      rw [assignedIds] at h
      have := ih _ h
      have hle := applyOp_counter_le st (Op.line s d)
      omega
    | disconnect i =>
      rw [assignedIds] at h
      have := ih _ h
      have hle := applyOp_counter_le st (Op.disconnect i)
      omega

theorem assignedIds_pairwise (ops : List Op) (st : ServerState) :
    (assignedIds st ops).Pairwise (· < ·) := by
  induction ops generalizing st with
  | nil => exact List.Pairwise.nil
  | cons op ops ih =>
    cases op with
    | connect =>
      rw [assignedIds]
      refine List.Pairwise.cons ?_ (ih _)
      intro y hy
      have := assignedIds_gt ops (applyOp st Op.connect) y hy
      show st.counter + 1 < y
      exact this
    | line s d =>
      rw [assignedIds]
      exact ih _
    | disconnect i =>
      rw [assignedIds]
      exact ih _

/-! Branch equations for routing and disconnection. -/

theorem route_message_present_eq (st : ServerState) (s r : Nat) (m : String)
    (h : r ∈ st.clients) :
    route_message st s r m =
      putQ (putQ st r (fromMsg s m)) s (deliveredMsg r) := by
  unfold route_message
  rw [if_pos h]

theorem route_message_absent_eq (st : ServerState) (s r : Nat) (m : String)
    (h : r ∉ st.clients) :
    route_message st s r m = putQ st s (notFoundMsg r) := by
  unfold route_message
  rw [if_neg h]

theorem disconnect_client_absent (st : ServerState) (id : Nat)
    (h : id ∉ st.clients) : disconnect_client st id = st := by
  unfold disconnect_client
  rw [if_neg h]

theorem disconnect_client_present (st : ServerState) (id : Nat)
    (h : id ∈ st.clients) :
    disconnect_client st id =
      { st with
        clients := st.clients.filter (fun x => x != id),
        queues := st.queues.filter (fun p => p.1 != id),
        closed := st.closed ++ [id] } := by
  unfold disconnect_client
  rw [if_pos h]

/-- C2: over any trace of connects, line handlings and disconnects
starting from the fresh server, the identities handed out by the
connects form a strictly increasing and hence pairwise distinct list:
the counter is `counter + 1` at each connect, starts at 0 and is never
decremented, so no identity is reused even after a disconnect. -/
theorem c2_assigned_ids_increasing (ops : List Op) :
    (assignedIds initState ops).Pairwise (· < ·) ∧
      (assignedIds initState ops).Nodup := by
  refine ⟨assignedIds_pairwise ops initState, ?_⟩
  exact List.Pairwise.imp (fun h => Nat.ne_of_lt h) (assignedIds_pairwise ops initState)

/-- C6: in every reachable state, an identity is a registry key exactly
when the queue map holds exactly one queue for it; connect creates both
under one critical section and disconnect removes both, so the key sets
always agree. -/
theorem c6_registry_queue_paired (ops : List Op) (id : Nat) :
    id ∈ (run initState ops).clients ↔
      (queueKeys (run initState ops).queues).count id = 1 := by
  obtain ⟨h1, h2, h3⟩ := goodState_run ops initState goodState_init
  constructor
  · intro hm
    have hnd : (queueKeys (run initState ops).queues).Nodup := h1 ▸ h2
    exact List.count_eq_one_of_mem hnd (h1 ▸ hm)
  · intro hc
    by_contra hnm
    have hk : id ∉ queueKeys (run initState ops).queues := fun hk =>
      hnm (h1.symm ▸ hk)
    rw [List.count_eq_zero.mpr hk] at hc
    simp at hc

/-- C7: disconnect is idempotent — when the identity is not registered
the state (registry, queues, close log, everything) is left unchanged
and no close is performed; a second disconnect of the same identity is a
no-op; when the identity is registered, the registry entry and the queue
are both removed and its connection is closed. -/
theorem c7_disconnect_idempotent (st : ServerState) (id : Nat) :
    (id ∉ st.clients → disconnect_client st id = st) ∧
    disconnect_client (disconnect_client st id) id = disconnect_client st id ∧
    (id ∈ st.clients →
      id ∉ (disconnect_client st id).clients ∧
      lookupQ id (disconnect_client st id).queues = none ∧
      (disconnect_client st id).closed = st.closed ++ [id] ∧
      (disconnect_client st id).counter = st.counter) := by
  have hmem : id ∈ st.clients →
      id ∉ (disconnect_client st id).clients ∧
      lookupQ id (disconnect_client st id).queues = none ∧
      (disconnect_client st id).closed = st.closed ++ [id] ∧
      (disconnect_client st id).counter = st.counter := by
    intro h
    rw [disconnect_client_present st id h]
    refine ⟨?_, lookupQ_filter_self st.queues id, rfl, rfl⟩
    intro hc
    have := (List.mem_filter.mp hc).2
    simp at this
  refine ⟨disconnect_client_absent st id, ?_, hmem⟩
  by_cases h : id ∈ st.clients
  · exact disconnect_client_absent _ id (hmem h).1
  · rw [disconnect_client_absent st id h]
    exact disconnect_client_absent st id h

/-- C9: the claim says `shutdown` disconnects every registered identity
and then closes the listening socket, completing from every reachable
state; on the code, `shutdown` holds `self.lock` while calling
`disconnect_client`, whose own `with self.lock:` on the non-reentrant
`threading.Lock` then blocks forever. Whenever at least one client is
registered the call deadlocks (modelled as `none`) before disconnecting
anyone or closing the socket. -/
theorem c9_shutdown_deadlock (st : ServerState) (h : st.clients ≠ []) :
    shutdown st = none := by
  obtain ⟨a, t, hc⟩ := List.exists_cons_of_ne_nil h
  show shutdownLoop st st.clients = none
  rw [hc]
  rfl

/-- C3: when the recipient is registered, routing enqueues exactly two
messages — the chat line attributing the body to the sender onto the
recipient's queue and the delivery acknowledgement naming the recipient
onto the sender's queue — leaving the registry, the queue key set and
every other queue untouched; a self-send goes through the same two
enqueues on the one shared queue, with no special case. -/
theorem c3_route_present_two_messages (st : ServerState) (s r : Nat)
    (body : String) (qs qr : List String)
    (hnd : (queueKeys st.queues).Nodup)
    (hr : r ∈ st.clients)
    (hqr : lookupQ r st.queues = some qr)
    (hqs : lookupQ s st.queues = some qs) :
    (route_message st s r body).clients = st.clients ∧
    queueKeys (route_message st s r body).queues = queueKeys st.queues ∧
    totalMsgs (route_message st s r body).queues = totalMsgs st.queues + 2 ∧
    (∀ k, k ≠ s → k ≠ r →
      lookupQ k (route_message st s r body).queues = lookupQ k st.queues) ∧
    (s ≠ r →
      lookupQ r (route_message st s r body).queues =
        some (qr ++ [fromMsg s body]) ∧
      lookupQ s (route_message st s r body).queues =
        some (qs ++ [deliveredMsg r])) ∧
    (s = r →
      lookupQ s (route_message st s r body).queues =
        some (qs ++ [fromMsg s body, deliveredMsg r])) := by
  rw [route_message_present_eq st s r body hr]
  have hrk : r ∈ queueKeys st.queues := mem_keys_of_lookupQ st.queues r qr hqr
  have hsk : s ∈ queueKeys st.queues := mem_keys_of_lookupQ st.queues s qs hqs
  refine ⟨rfl, ?_, ?_, ?_, ?_, ?_⟩
  · show queueKeys (putQueue (putQueue st.queues r _) s _) = queueKeys st.queues
    rw [putQueue_keys, putQueue_keys]
  · show totalMsgs (putQueue (putQueue st.queues r _) s _) = totalMsgs st.queues + 2
    rw [totalMsgs_putQueue, putQueue_keys, totalMsgs_putQueue,
      List.count_eq_one_of_mem hnd hsk, List.count_eq_one_of_mem hnd hrk]
  · intro k hks hkr
    show lookupQ k (putQueue (putQueue st.queues r _) s _) = lookupQ k st.queues
    rw [lookupQ_putQueue_ne _ s k _ hks, lookupQ_putQueue_ne _ r k _ hkr]
  · intro hsr
    constructor
    · show lookupQ r (putQueue (putQueue st.queues r _) s _) = _
      rw [lookupQ_putQueue_ne _ s r _ (fun hc => hsr hc.symm)]
      exact lookupQ_putQueue_self st.queues r _ qr hqr
    · show lookupQ s (putQueue (putQueue st.queues r _) s _) = _
      apply lookupQ_putQueue_self
      rw [lookupQ_putQueue_ne _ r s _ hsr]
      exact hqs
  · intro hsr
    subst hsr
    have hq : qr = qs := by
      rw [hqr] at hqs
      exact (Option.some.injEq _ _).mp hqs
    subst hq
    show lookupQ s (putQueue (putQueue st.queues s _) s _) = _
    have h1 := lookupQ_putQueue_self st.queues s (fromMsg s body) qr hqr
    have h2 := lookupQ_putQueue_self (putQueue st.queues s (fromMsg s body)) s
      (deliveredMsg s) _ h1
    rw [h2]
    simp

/-- C4: when the recipient is not registered, routing enqueues exactly
one message: the not-found error naming the missing identity, onto the
sender's queue only; the registry is unchanged, no registry entry or
queue is created for the missing identity, and every other queue is
untouched. -/
theorem c4_route_absent_error_only (st : ServerState) (s r : Nat)
    (body : String) (qs : List String)
    (hr : r ∉ st.clients)
    (hqs : lookupQ s st.queues = some qs)
    (hnd : (queueKeys st.queues).Nodup) :
    (route_message st s r body).clients = st.clients ∧
    r ∉ (route_message st s r body).clients ∧
    queueKeys (route_message st s r body).queues = queueKeys st.queues ∧
    lookupQ s (route_message st s r body).queues =
      some (qs ++ [notFoundMsg r]) ∧
    (∀ k, k ≠ s →
      lookupQ k (route_message st s r body).queues = lookupQ k st.queues) ∧
    totalMsgs (route_message st s r body).queues = totalMsgs st.queues + 1 ∧
    (∃ a b, notFoundMsg r = a ++ (Nat.repr r ++ b)) := by
  rw [route_message_absent_eq st s r body hr]
  have hsk : s ∈ queueKeys st.queues := mem_keys_of_lookupQ st.queues s qs hqs
  refine ⟨rfl, hr, putQ_keys st s _, ?_, ?_, ?_, ?_⟩
  · exact lookupQ_putQueue_self st.queues s _ qs hqs
  · intro k hks
    exact lookupQ_putQueue_ne st.queues s k _ hks
  · show totalMsgs (putQueue st.queues s _) = totalMsgs st.queues + 1
    rw [totalMsgs_putQueue, List.count_eq_one_of_mem hnd hsk]
  · exact ⟨notFoundPre, notFoundSuf, rfl⟩

/-! Concrete states used by the witnesses and counterexamples. -/

/-- The state after one connect: client 1 registered and welcomed. -/
def stEx1 : ServerState :=
  { counter := 1, clients := [1], queues := [(1, [Nat.repr 1])],
    closed := [], socketClosed := false }

/-- The state after two connects: clients 1 and 2 registered and welcomed. -/
def stEx2 : ServerState :=
  { counter := 2, clients := [1, 2],
    queues := [(1, [Nat.repr 1]), (2, [Nat.repr 2])],
    closed := [], socketClosed := false }

/-- A sample message body. -/
def hiBody : String := "hi"

theorem stEx1_reachable : stEx1 = run initState [Op.connect] := by decide

theorem stEx2_reachable : stEx2 = run initState [Op.connect, Op.connect] := by
  decide

/-- Concrete instance of C3: in the two-client state, client 1 sending to
client 2 enqueues the attributed chat line to 2 and the acknowledgement
to 1, and touches no other queue (checked at identity 3). -/
theorem c3_route_present_two_messages_witness :
    (route_message stEx2 1 2 hiBody).clients = stEx2.clients ∧
    totalMsgs (route_message stEx2 1 2 hiBody).queues = totalMsgs stEx2.queues + 2 ∧
    lookupQ 3 (route_message stEx2 1 2 hiBody).queues = lookupQ 3 stEx2.queues ∧
    lookupQ 2 (route_message stEx2 1 2 hiBody).queues =
      some ([Nat.repr 2] ++ [fromMsg 1 hiBody]) ∧
    lookupQ 1 (route_message stEx2 1 2 hiBody).queues =
      some ([Nat.repr 1] ++ [deliveredMsg 2]) :=
  have h := c3_route_present_two_messages stEx2 1 2 hiBody
    [Nat.repr 1] [Nat.repr 2] (by decide) (by decide) (by decide) (by decide)
  ⟨h.1, h.2.2.1, h.2.2.2.1 3 (by decide) (by decide),
    (h.2.2.2.2.1 (by decide)).1, (h.2.2.2.2.1 (by decide)).2⟩

/-- Concrete instance of C4: in the two-client state, client 1 sending to
the unregistered identity 9 gets exactly the not-found error naming 9,
and no other queue (checked at identity 2) is touched. -/
theorem c4_route_absent_error_only_witness :
    (route_message stEx2 1 9 hiBody).clients = stEx2.clients ∧
    9 ∉ (route_message stEx2 1 9 hiBody).clients ∧
    queueKeys (route_message stEx2 1 9 hiBody).queues = queueKeys stEx2.queues ∧
    lookupQ 1 (route_message stEx2 1 9 hiBody).queues =
      some ([Nat.repr 1] ++ [notFoundMsg 9]) ∧
    lookupQ 2 (route_message stEx2 1 9 hiBody).queues = lookupQ 2 stEx2.queues ∧
    totalMsgs (route_message stEx2 1 9 hiBody).queues = totalMsgs stEx2.queues + 1 :=
  have h := c4_route_absent_error_only stEx2 1 9 hiBody [Nat.repr 1]
    (by decide) (by decide) (by decide)
  ⟨h.1, h.2.1, h.2.2.1, h.2.2.2.1, h.2.2.2.2.1 2 (by decide), h.2.2.2.2.2.1⟩

/-! The malformed-send branch of `handle_client`. -/

theorem handle_line_send_malformed (st : ServerState) (sender : Nat)
    (data : String)
    (hsend : pyStartswith data sendCmdStr = true)
    (hmal : sendWellFormed data = false) :
    handle_line st sender data = putQ st sender formatErrMsg := by
  unfold handle_line
  rw [hsend, if_pos rfl]
  unfold sendWellFormed at hmal
  split
  · rename_i p0 p1 p2 heq
    rw [heq] at hmal
    simp only at hmal
    rw [hmal]
    simp
  · rfl

/-- The `/send` line with the recipient token `0`. -/
def sendZeroLine : String := "/send 0 hi"

/-- The token `0`. -/
def zeroTok : String := "0"

/-- C5 counterexample: the claim requires the recipient token to parse as
a positive integer, with a format error for any token that is not one;
but `0` is not a positive integer (`int('0') = 0`) while `'0'.isdigit()`
holds, so the code routes the message instead of reporting a format
error — the sender receives the not-found error, not the format error. -/
theorem c5_send_zero_counterexample :
    pySplit3 sendZeroLine = [sendCmdStr, zeroTok, hiBody] ∧
    pyIsdigit zeroTok = true ∧
    pyInt zeroTok = 0 ∧
    handle_line stEx1 1 sendZeroLine = putQ stEx1 1 (notFoundMsg 0) ∧
    lookupQ 1 (handle_line stEx1 1 sendZeroLine).queues =
      some [Nat.repr 1, notFoundMsg 0] ∧
    notFoundMsg 0 ≠ formatErrMsg := by
  decide

/-- C5 (amended): the recipient token must consist solely of decimal
digits (Python `isdigit`, so any nonnegative integer, including `0`, is
accepted and routed); the line is split into at most 3 tokens so the
body keeps its internal whitespace; and when the line is malformed —
wrong arity or a token with a non-digit character — the format error is
enqueued to the sender only and nothing is routed to any recipient. -/
theorem c5_send_malformed_amended (st : ServerState) (sender : Nat)
    (data : String) (qs : List String)
    (hq : lookupQ sender st.queues = some qs)
    (hsend : pyStartswith data sendCmdStr = true)
    (hmal : sendWellFormed data = false) :
    handle_line st sender data = putQ st sender formatErrMsg ∧
    lookupQ sender (handle_line st sender data).queues =
      some (qs ++ [formatErrMsg]) ∧
    (∀ k, k ≠ sender →
      lookupQ k (handle_line st sender data).queues = lookupQ k st.queues) ∧
    (handle_line st sender data).clients = st.clients ∧
    (pySplit3 data).length ≤ 3 := by
  have heq := handle_line_send_malformed st sender data hsend hmal
  refine ⟨heq, ?_, ?_, handle_line_clients st sender data, pySplit3_length data⟩
  · rw [heq]
    exact lookupQ_putQueue_self st.queues sender formatErrMsg qs hq
  · intro k hk
    rw [heq]
    exact lookupQ_putQueue_ne st.queues sender k _ hk

/-- A `/send` line whose recipient token has non-digit characters. -/
def sendBadTokLine : String := "/send abc hello"

/-- Concrete instance of amended C5: a non-digit recipient token yields
exactly the format error on the sender's queue. -/
theorem c5_send_malformed_amended_witness :
    handle_line stEx1 1 sendBadTokLine = putQ stEx1 1 formatErrMsg ∧
    lookupQ 1 (handle_line stEx1 1 sendBadTokLine).queues =
      some ([Nat.repr 1] ++ [formatErrMsg]) :=
  ⟨(c5_send_malformed_amended stEx1 1 sendBadTokLine [Nat.repr 1]
      (by decide) (by decide) (by decide)).1,
    (c5_send_malformed_amended stEx1 1 sendBadTokLine [Nat.repr 1]
      (by decide) (by decide) (by decide)).2.1⟩

/-- C10: a `/send` line that splits into exactly two tokens — a recipient
token but no body, as in `/send 5` or `/send 5 ` with only trailing
whitespace — fails the arity check, so the sender gets the format error
and nothing is routed; moreover every three-token split has a nonempty
third token, so an empty-body message can never be sent. -/
theorem c10_send_without_body (st : ServerState) (sender : Nat)
    (data : String) (qs : List String)
    (hq : lookupQ sender st.queues = some qs)
    (hsend : pyStartswith data sendCmdStr = true)
    (h2 : (pySplit3 data).length = 2) :
    handle_line st sender data = putQ st sender formatErrMsg ∧
    lookupQ sender (handle_line st sender data).queues =
      some (qs ++ [formatErrMsg]) ∧
    (∀ k, k ≠ sender →
      lookupQ k (handle_line st sender data).queues = lookupQ k st.queues) ∧
    (handle_line st sender data).clients = st.clients ∧
    (∀ s0 p0 p1 p2, pySplit3 s0 = [p0, p1, p2] → p2 ≠ "") := by
  have hmal : sendWellFormed data = false := by
    unfold sendWellFormed
    split
    · rename_i p0 p1 p2 heq
      rw [heq] at h2
      simp at h2
    · rfl
  have heq := handle_line_send_malformed st sender data hsend hmal
  refine ⟨heq, ?_, ?_, handle_line_clients st sender data, ?_⟩
  · rw [heq]
    exact lookupQ_putQueue_self st.queues sender formatErrMsg qs hq
  · intro k hk
    rw [heq]
    exact lookupQ_putQueue_ne st.queues sender k _ hk
  · intro s0 p0 p1 p2 hp
    exact pySplit3_third_ne_empty s0 p0 p1 p2 hp

/-- The bodyless line with no trailing whitespace. -/
def sendNoBody : String := "/send 5"

/-- The bodyless line with only trailing whitespace. -/
def sendNoBodyTrail : String := "/send 5 "

/-- Concrete instance of C10 at both bodyless shapes. -/
theorem c10_send_without_body_witness :
    handle_line stEx1 1 sendNoBodyTrail = putQ stEx1 1 formatErrMsg ∧
    lookupQ 1 (handle_line stEx1 1 sendNoBody).queues =
      some ([Nat.repr 1] ++ [formatErrMsg]) :=
  ⟨(c10_send_without_body stEx1 1 sendNoBodyTrail [Nat.repr 1]
      (by decide) (by decide) (by decide)).1,
    (c10_send_without_body stEx1 1 sendNoBody [Nat.repr 1]
      (by decide) (by decide) (by decide)).2.1⟩

/-- A line whose leading token is neither `/send` nor `/users` but has
`/users` as a proper prefix. -/
def usersJunkLine : String := "/usersXYZ"

/-- C8 counterexample: the claim classifies by the leading token, so the
line `/usersXYZ` — whose single token is neither `/send` nor `/users` —
should draw the unknown-command error; but the code classifies with
`startswith`, hands the line to the `/users` branch and enqueues the
user list instead. -/
theorem c8_prefix_counterexample :
    pySplit3 usersJunkLine = [usersJunkLine] ∧
    usersJunkLine ≠ sendCmdStr ∧
    usersJunkLine ≠ usersCmdStr ∧
    handle_line stEx1 1 usersJunkLine = putQ stEx1 1 (usersMsg stEx1) ∧
    lookupQ 1 (handle_line stEx1 1 usersJunkLine).queues =
      some [Nat.repr 1, usersMsg stEx1] ∧
    usersMsg stEx1 ≠ unknownCmdMsg := by
  decide

/-- C8 (amended): the router classifies each inbound line by prefix, not
by leading token: a line starting with `/send` is handled as a send, a
line otherwise starting with `/users` as a user-list request, and every
other non-empty line draws exactly one unknown-command error — carrying
the list of recognised command forms — enqueued to the sender only,
with nothing routed to anyone else. -/
theorem c8_unknown_prefix_amended (st : ServerState) (sender : Nat)
    (data : String) (qs : List String)
    (_hne : data ≠ "")
    (hq : lookupQ sender st.queues = some qs)
    (hns : pyStartswith data sendCmdStr = false)
    (hnu : pyStartswith data usersCmdStr = false) :
    handle_line st sender data = putQ st sender unknownCmdMsg ∧
    lookupQ sender (handle_line st sender data).queues =
      some (qs ++ [unknownCmdMsg]) ∧
    (∀ k, k ≠ sender →
      lookupQ k (handle_line st sender data).queues = lookupQ k st.queues) ∧
    (handle_line st sender data).clients = st.clients ∧
    unknownCmdMsg = unknownPre ++ pyJoin nlSep ALLOWED_COMMANDS := by
  have heq : handle_line st sender data = putQ st sender unknownCmdMsg := by
    unfold handle_line
    rw [hns, hnu]
    simp
  refine ⟨heq, ?_, ?_, handle_line_clients st sender data, rfl⟩
  · rw [heq]
    exact lookupQ_putQueue_self st.queues sender unknownCmdMsg qs hq
  · intro k hk
    rw [heq]
    exact lookupQ_putQueue_ne st.queues sender k _ hk

/-- A line that is no command at all. -/
def plainHelloLine : String := "hello"

/-- Concrete instance of amended C8: a plain chat line draws exactly the
unknown-command error on the sender's queue. -/
theorem c8_unknown_prefix_amended_witness :
    handle_line stEx1 1 plainHelloLine = putQ stEx1 1 unknownCmdMsg ∧
    lookupQ 1 (handle_line stEx1 1 plainHelloLine).queues =
      some ([Nat.repr 1] ++ [unknownCmdMsg]) :=
  ⟨(c8_unknown_prefix_amended stEx1 1 plainHelloLine [Nat.repr 1]
      (by decide) (by decide) (by decide) (by decide)).1,
    (c8_unknown_prefix_amended stEx1 1 plainHelloLine [Nat.repr 1]
      (by decide) (by decide) (by decide) (by decide)).2.1⟩

/-! The welcome-message race behind C1. -/

/-- State after client 1 is fully connected. -/
def raceSt1 : ServerState := connectClient initState

/-- State after client 2 is registered (lines 49-54) while its welcome
enqueue (lines 59-61, outside the lock) is still pending. -/
def raceSt2 : ServerState := connectReg raceSt1

/-- The send that client 1's inbound thread routes in that window. -/
def sendToTwoLine : String := "/send 2 hi"

/-- State after client 1's `/send 2 hi` is handled in the window. -/
def raceSt3 : ServerState := handle_line raceSt2 1 sendToTwoLine

/-- State after the accept thread resumes and performs the pending
welcome enqueue for client 2. -/
def raceSt4 : ServerState := welcomePut raceSt3 2

/-- C1: the claim says the first message enqueued to a new client's queue
is the decimal string of its identity, before any other traffic. The
code registers the client and creates its queue under `self.lock`
(src/server.py lines 52-54) but enqueues the welcome outside the lock
(lines 59-61); `connectClient` is exactly these two atomic actions back
to back. In the interleaving where client 1 routes `/send 2 hi` between
the two actions — `route_message` finds 2 registered, so it delivers —
the chat message is enqueued first and the welcome second, so the first
message client 2 receives is not the string `2`. -/
theorem c1_welcome_race :
    connectClient raceSt1 = welcomePut (connectReg raceSt1) (raceSt1.counter + 1) ∧
    raceSt1.counter + 1 = 2 ∧
    (2 : Nat) ∈ raceSt2.clients ∧
    lookupQ 2 raceSt2.queues = some [] ∧
    raceSt3 = route_message raceSt2 1 2 hiBody ∧
    lookupQ 2 raceSt4.queues = some [fromMsg 1 hiBody, Nat.repr 2] ∧
    fromMsg 1 hiBody ≠ Nat.repr 2 := by
  decide

/-- Concrete instance of C7 at the two-client state: disconnecting the
never-assigned identity 5 is a no-op with no close, and disconnecting
client 1 removes its registry entry and queue and closes it. -/
theorem c7_disconnect_idempotent_witness :
    disconnect_client stEx2 5 = stEx2 ∧
    1 ∉ (disconnect_client stEx2 1).clients ∧
    lookupQ 1 (disconnect_client stEx2 1).queues = none ∧
    (disconnect_client stEx2 1).closed = stEx2.closed ++ [1] :=
  ⟨(c7_disconnect_idempotent stEx2 5).1 (by decide),
    ((c7_disconnect_idempotent stEx2 1).2.2 (by decide)).1,
    ((c7_disconnect_idempotent stEx2 1).2.2 (by decide)).2.1,
    ((c7_disconnect_idempotent stEx2 1).2.2 (by decide)).2.2.1⟩

/-- Concrete instance of C9: with the single client 1 connected,
`shutdown` deadlocks. -/
theorem c9_shutdown_deadlock_witness :
    stEx1.clients ≠ [] ∧ shutdown stEx1 = none :=
  ⟨by decide, c9_shutdown_deadlock stEx1 (by decide)⟩
